import Mathlib

/-!
Verification development for the hridayarakshak repository.

This file gives a shallow embedding, in Lean 4, of the algorithmic core of
the repository:

* the auto-trigger arbiter of `src/components/ECGMonitor.tsx`
  (sustain / arm / countdown / rate-limit state machine),
* the signal-analysis heuristics of the `analyze-ecg` edge function
  (`detectSTElevation`, `movingAverage`, `detectBeats`, `analyzeSignal`),
* the auxiliary-classifier merge step of `analyzeSignal` (ONNX and
  Hugging Face result merging),
* the `emergency-alert` edge function (responder ranking by haversine
  distance, notification fan-out, delivery-outcome recording),
* the `trigger-emergency` edge function (alert insertion and dispatch).

JavaScript numbers are modelled as real numbers (`ℝ`) where square roots
and trigonometry occur, as rationals (`ℚ`) for the classifier
probabilities, and as naturals/integers for timestamps and counters.
Timers and asynchronous completions are modelled as an explicit event
step relation on a state record.
-/

namespace Arbiter

/-! ### The auto-trigger arbiter of `ECGMonitor.tsx`

The component keeps these pieces of state (hooks and refs):
`stSinceRef` (start of the sustained-elevation episode),
`armed`, `countdown`, `armingTimerRef` (the 1 Hz countdown interval),
`lastTriggeredAt` (set when the async trigger call resolves),
`lastNotifAtRef` (local-notice rate limiting).
We add `pending` (number of in-flight `callTriggerEmergency` calls,
created when the countdown fires and consumed when the call resolves)
and `fired` (the audit list of times at which the emergency trigger was
invoked).  Times are in milliseconds, `stPercent` is an integer percent.
-/

/-- Constant `TRIGGER_THRESHOLD = 25` from `ECGMonitor.tsx`. -/
def TRIGGER_THRESHOLD : Int := 25

/-- Constant `SUSTAIN_SECONDS = 5` from `ECGMonitor.tsx`. -/
def SUSTAIN_SECONDS : Nat := 5

/-- Constant `ARM_COUNTDOWN = 3` from `ECGMonitor.tsx`. -/
def ARM_COUNTDOWN : Nat := 3

/-- Constant `RATE_LIMIT_MS = 2 * 60 * 1000` from `ECGMonitor.tsx`. -/
def RATE_LIMIT_MS : Nat := 2 * 60 * 1000

/-- Constant `NOTIFICATION_COOLDOWN_MS = 30 * 1000` from `ECGMonitor.tsx`. -/
def NOTIFICATION_COOLDOWN_MS : Nat := 30 * 1000

/-- State of the auto-trigger machinery of `ECGMonitor.tsx`. -/
structure ArbState where
  stSince : Option Nat
  armed : Bool
  countdown : Option Nat
  timerActive : Bool
  lastTriggeredAt : Option Nat
  lastNotifAt : Option Nat
  pending : Nat
  fired : List Nat
  deriving Repr, DecidableEq

/-- The state in which the component mounts: every ref null, nothing armed. -/
def startState : ArbState :=
  { stSince := none, armed := false, countdown := none, timerActive := false,
    lastTriggeredAt := none, lastNotifAt := none, pending := 0, fired := [] }

/-- The rate-limit test `lastTriggeredAt && now - lastTriggeredAt < RATE_LIMIT_MS`
(JS truthiness: `lastTriggeredAt` must be non-null and non-zero). -/
def cooling (s : ArbState) (now : Nat) : Bool :=
  match s.lastTriggeredAt with
  | none => false
  | some t => decide (t ≠ 0) && decide (now - t < RATE_LIMIT_MS)

/-- The reset performed when ST% drops (or the toggle is off): clear the
sustain start and, if the arming interval is live, clear it together with
the countdown and armed flag. -/
def resetArming (s : ArbState) : ArbState :=
  let s1 := { s with stSince := none }
  if s1.timerActive then
    { s1 with timerActive := false, countdown := none, armed := false }
  else s1

/-- One run of the auto-trigger `useEffect` body in `ECGMonitor.tsx`
(lines 257–366), given the current wall-clock time, the toggle value and
the current `stPercent` value. -/
def effectRun (s : ArbState) (now : Nat) (enabled : Bool) (stp : Option Int) : ArbState :=
  if !enabled then resetArming s
  else if cooling s now then s
  else
    match stp with
    | some p =>
      if TRIGGER_THRESHOLD ≤ p then
        -- local-attention notice (advisory, only touches lastNotifAtRef)
        let s1 := if NOTIFICATION_COOLDOWN_MS < now - s.lastNotifAt.getD 0 then
            { s with lastNotifAt := some now } else s
        -- `if (!stSinceRef.current) stSinceRef.current = now`
        let s2 := if s1.stSince.getD 0 = 0 then { s1 with stSince := some now } else s1
        -- `elapsed = (now - (stSinceRef.current ?? now)) / 1000`
        let elapsed := (now - s2.stSince.getD now) / 1000
        if SUSTAIN_SECONDS ≤ elapsed ∧ s2.armed = false ∧ s2.countdown.getD 0 = 0 then
          { s2 with armed := true, countdown := some ARM_COUNTDOWN, timerActive := true }
        else s2
      else resetArming s
    | none => resetArming s

/-- One firing of the arming interval callback (`setCountdown` updater):
decrement the countdown, and when it reaches `c <= 1` clear the timer and
invoke the emergency trigger (an async call; `lastTriggeredAt` is only
set when that call resolves, see `resolveStep`). -/
def tickStep (s : ArbState) (now : Nat) : ArbState :=
  if s.timerActive then
    match s.countdown with
    | none => s
    | some c =>
      if c ≤ 1 then
        { s with timerActive := false, countdown := none, armed := false,
                 pending := s.pending + 1, fired := s.fired ++ [now] }
      else { s with countdown := some (c - 1) }
  else s

/-- Resolution of one in-flight `callTriggerEmergency` call:
`setLastTriggeredAt(Date.now())` runs in the async continuation. -/
def resolveStep (s : ArbState) (now : Nat) : ArbState :=
  if 0 < s.pending then
    { s with pending := s.pending - 1, lastTriggeredAt := some now }
  else s

/-- The user-initiated `cancelArming` handler. -/
def cancelStep (s : ArbState) : ArbState :=
  { s with stSince := none, timerActive := false, countdown := none, armed := false }

/-- Events driving the arbiter: effect runs (risk updates / re-renders),
countdown interval ticks, async trigger-call resolutions, user cancel. -/
inductive ArbEvent where
  | risk (now : Nat) (enabled : Bool) (stp : Option Int)
  | tick (now : Nat)
  | resolve (now : Nat)
  | cancel
  deriving Repr, DecidableEq

/-- Step function of the arbiter. -/
def stepArb (s : ArbState) : ArbEvent → ArbState
  | .risk now enabled stp => effectRun s now enabled stp
  | .tick now => tickStep s now
  | .resolve now => resolveStep s now
  | .cancel => cancelStep s

/-- Run the arbiter from the mount state over a list of events. -/
def runArb (es : List ArbEvent) : ArbState := es.foldl stepArb startState

end Arbiter

namespace Arbiter

/-! ### State-machine predicates

The spec's `EscalationState` names map onto the component state as
follows.  `Cooling` is the condition checked by the rate-limit guard;
since the spec's states are mutually exclusive, `Sustaining` and `Armed`
both exclude it. -/

/-- Spec state `Idle`: no sustain episode, nothing armed, no countdown,
no live arming timer. -/
abbrev IdleSt (s : ArbState) : Prop :=
  s.stSince = none ∧ s.armed = false ∧ s.countdown = none ∧ s.timerActive = false

/-- Spec state `Sustaining`: a sustain episode is open (truthy
`stSinceRef`), not yet armed, and not inside the cooldown window. -/
abbrev SustainingSt (s : ArbState) (now : Nat) : Prop :=
  s.stSince.getD 0 ≠ 0 ∧ s.armed = false ∧ cooling s now = false

/-- Spec state `Armed`: the countdown has been started and the state is
not inside the cooldown window. -/
abbrev ArmedSt (s : ArbState) (now : Nat) : Prop :=
  s.armed = true ∧ cooling s now = false

/-- Structural invariant of the component: the armed flag or a live
countdown value implies the arming interval is live. -/
def ArbInv (s : ArbState) : Prop :=
  (s.armed = true ∨ s.countdown ≠ none) → s.timerActive = true

theorem arbInv_start : ArbInv startState := by
  intro h
  rcases h with h | h <;> simp [startState] at h

theorem arbInv_resetArming (s : ArbState) (h : ArbInv s) : ArbInv (resetArming s) := by
  unfold ArbInv at h ⊢
  simp only [resetArming]
  split_ifs <;> simp_all

theorem arbInv_effectRun (s : ArbState) (now : Nat) (enabled : Bool) (stp : Option Int)
    (h : ArbInv s) : ArbInv (effectRun s now enabled stp) := by
  unfold ArbInv at h ⊢
  cases stp <;> simp only [effectRun, resetArming] <;> split_ifs <;> simp_all

theorem arbInv_tickStep (s : ArbState) (now : Nat) (h : ArbInv s) :
    ArbInv (tickStep s now) := by
  unfold ArbInv at h ⊢
  cases hc : s.countdown <;> simp only [tickStep, hc] <;> split_ifs <;> simp_all

theorem arbInv_resolveStep (s : ArbState) (now : Nat) (h : ArbInv s) :
    ArbInv (resolveStep s now) := by
  unfold ArbInv at h ⊢
  simp only [resolveStep]
  split_ifs <;> simp_all

theorem arbInv_cancelStep (s : ArbState) : ArbInv (cancelStep s) := by
  intro h
  rcases h with h | h <;> simp [cancelStep] at h

theorem arbInv_step (s : ArbState) (e : ArbEvent) (h : ArbInv s) : ArbInv (stepArb s e) := by
  cases e with
  | risk now enabled stp => exact arbInv_effectRun s now enabled stp h
  | tick now => exact arbInv_tickStep s now h
  | resolve now => exact arbInv_resolveStep s now h
  | cancel => exact arbInv_cancelStep s

theorem arbInv_runArb (es : List ArbEvent) : ArbInv (runArb es) := by
  suffices hgen : ∀ (l : List ArbEvent) (s : ArbState), ArbInv s → ArbInv (l.foldl stepArb s) by
    exact hgen es startState arbInv_start
  intro l
  induction l with
  | nil => intro s hs; exact hs
  | cons e l ih => intro s hs; exact ih (stepArb s e) (arbInv_step s e hs)

end Arbiter

namespace Arbiter

theorem idleSt_resetArming (s : ArbState) (h : ArbInv s) :
    IdleSt (resetArming s) := by
  unfold ArbInv at h
  unfold resetArming IdleSt
  dsimp only
  split_ifs with ht
  · exact ⟨rfl, rfl, rfl, rfl⟩
  · refine ⟨rfl, ?_, ?_, ?_⟩
    · cases hx : s.armed
      · rfl
      · exact absurd (h (Or.inl hx)) (by simpa using ht)
    · cases hx : s.countdown
      · rfl
      · exact absurd (h (Or.inr (by simp [hx]))) (by simpa using ht)
    · simpa using ht

theorem fired_resetArming (s : ArbState) : (resetArming s).fired = s.fired := by
  unfold resetArming
  dsimp only
  split_ifs <;> rfl

theorem tickStep_of_inactive (s : ArbState) (t : Nat) (h : s.timerActive = false) :
    tickStep s t = s := by
  simp [tickStep, h]

end Arbiter

namespace Arbiter

/-- Claim C3 (code bug): after an escalation fires, the 2-minute rate limit is
supposed to suppress any second escalation while ST% stays high.  The code
records `lastTriggeredAt` only when the async `callTriggerEmergency` call
resolves, and an effect run in that gap re-arms; the cooldown early-return then
leaves the new arming interval running, so it fires again 3 s after the first
escalation.  This theorem evaluates the model on that schedule: ST% is fed at 90
throughout, the first escalation fires at t = 9000 ms, and a second one fires at
t = 12000 ms — 3 s later, far inside the 2-minute window. -/
theorem c3_double_fire_within_cooldown :
    (runArb [ArbEvent.risk 1000 true (some 90), ArbEvent.risk 6000 true (some 90),
      ArbEvent.tick 7000, ArbEvent.tick 8000, ArbEvent.tick 9000,
      ArbEvent.risk 9001 true (some 90), ArbEvent.resolve 9200,
      ArbEvent.risk 9201 true (some 90),
      ArbEvent.tick 10000, ArbEvent.tick 11000, ArbEvent.tick 12000]).fired
      = [9000, 12000]
    ∧ 12000 - 9000 < RATE_LIMIT_MS := by
  decide

/-- Claim C4: from `Sustaining` or `Armed` (states that, per the spec, exclude
the cooldown window), a risk update below the threshold immediately resets the
machine to `Idle` — sustain start cleared, countdown cancelled, arming timer
stopped — the episode fires nothing, and a subsequent timer tick cannot fire.
Moreover (scenario): ST% fed at 30 at t = 1000 ms and t = 6000 ms (5 s
sustained) reaches `Armed`; if instead the second update reports 10 at
t = 5900 ms (4.9 s), the machine returns to `Idle`, never arms and never
fires. -/
theorem c4_subthreshold_resets_to_idle :
    (∀ (es : List ArbEvent) (now : Nat) (p : Int),
      (SustainingSt (runArb es) now ∨ ArmedSt (runArb es) now) →
      p < TRIGGER_THRESHOLD →
      IdleSt (effectRun (runArb es) now true (some p)) ∧
      (effectRun (runArb es) now true (some p)).fired = (runArb es).fired ∧
      ∀ t, (tickStep (effectRun (runArb es) now true (some p)) t).fired = (runArb es).fired)
    ∧ (runArb [ArbEvent.risk 1000 true (some 30), ArbEvent.risk 6000 true (some 30)]).armed = true
    ∧ IdleSt (runArb [ArbEvent.risk 1000 true (some 30), ArbEvent.risk 5900 true (some 10)])
    ∧ (runArb [ArbEvent.risk 1000 true (some 30)]).armed = false
    ∧ (runArb [ArbEvent.risk 1000 true (some 30), ArbEvent.risk 5900 true (some 10)]).armed = false
    ∧ (runArb [ArbEvent.risk 1000 true (some 30), ArbEvent.risk 5900 true (some 10)]).fired = [] := by
  refine ⟨?_, by decide, by decide, by decide, by decide, by decide⟩
  intro es now p hst hp
  have hinv := arbInv_runArb es
  have hcool : cooling (runArb es) now = false := by
    rcases hst with h | h
    · exact h.2.2
    · exact h.2
  have hle : ¬ TRIGGER_THRESHOLD ≤ p := by omega
  have heq : effectRun (runArb es) now true (some p) = resetArming (runArb es) := by
    simp [effectRun, hcool, hle]
  rw [heq]
  have hidle := idleSt_resetArming (runArb es) hinv
  refine ⟨hidle, fired_resetArming (runArb es), ?_⟩
  intro t
  rw [tickStep_of_inactive _ t hidle.2.2.2]
  exact fired_resetArming (runArb es)

/-- Witness for `c4_subthreshold_resets_to_idle`: a concrete armed state (ST%
90 sustained from t = 1000 ms to t = 6000 ms) and a concrete sub-threshold
update (ST% 10 at t = 6001 ms) discharging the theorem's hypotheses. -/
theorem c4_subthreshold_resets_to_idle_witness :
    (SustainingSt (runArb [ArbEvent.risk 1000 true (some 90), ArbEvent.risk 6000 true (some 90)]) 6001
      ∨ ArmedSt (runArb [ArbEvent.risk 1000 true (some 90), ArbEvent.risk 6000 true (some 90)]) 6001)
    ∧ (10 : Int) < TRIGGER_THRESHOLD
    ∧ IdleSt (effectRun (runArb [ArbEvent.risk 1000 true (some 90),
        ArbEvent.risk 6000 true (some 90)]) 6001 true (some 10)) :=
  ⟨by decide, by decide,
    (c4_subthreshold_resets_to_idle.1
      [ArbEvent.risk 1000 true (some 90), ArbEvent.risk 6000 true (some 90)]
      6001 10 (by decide) (by decide)).1⟩

end Arbiter

namespace Merge

/-! ### The auxiliary-classifier merge of `analyze-ecg`'s `analyzeSignal`

`analyzeSignal` first computes the heuristic pattern list and risk level,
then (lines 120–243) optionally merges an ONNX service response and/or a
Hugging Face response.  Probabilities are JSON numbers, modelled as `ℚ`. -/

/-- The `risk_level` values `"low" | "medium" | "high"`. -/
inductive Risk where
  | low
  | medium
  | high
  deriving Repr, DecidableEq

/-- Severity order on risk levels (low < medium < high). -/
def riskRank : Risk → Nat
  | .low => 0
  | .medium => 1
  | .high => 2

/-- The probability lookups the ONNX merge performs on
`onnxData.probabilities` (absent keys are `none`). -/
structure OnnxProbs where
  stElevation : Option ℚ
  stElevationUC : Option ℚ
  afib : Option ℚ
  tachycardia : Option ℚ
  deriving Repr, DecidableEq

/-- `if (cond && !patterns.includes(p)) patterns.push(p)`. -/
def pushNew (patterns : List String) (cond : Bool) (p : String) : List String :=
  if cond && !(patterns.contains p) then patterns ++ [p] else patterns

/-- The ONNX pattern merge (index.ts lines 138–140):
`probs["st_elevation"] ?? probs["ST_ELEVATION"] ?? 0` etc. -/
def onnxMergePatterns (pr : OnnxProbs) (patterns : List String) : List String :=
  let p1 := pushNew patterns
    (decide ((0.5 : ℚ) < (pr.stElevation.orElse fun _ => pr.stElevationUC).getD 0)) "st_elevation"
  let p2 := pushNew p1 (decide ((0.4 : ℚ) < pr.afib.getD 0)) "possible_afib"
  pushNew p2 (decide ((0.5 : ℚ) < pr.tachycardia.getD 0)) "tachycardia"

/-- The ONNX risk override (index.ts lines 142–143):
`if (probs["st_elevation"] ?? 0) > 0.6 risk = high; else if (probs["afib"] ?? 0) > 0.4 risk = medium`. -/
def onnxMergeRisk (pr : OnnxProbs) (risk : Risk) : Risk :=
  if (0.6 : ℚ) < pr.stElevation.getD 0 then .high
  else if (0.4 : ℚ) < pr.afib.getD 0 then .medium
  else risk

/-- The Hugging Face structured pattern merge (index.ts lines 193–196):
push every HF pattern not already present. -/
def hfMergePatterns (hfPatterns : List String) (patterns : List String) : List String :=
  hfPatterns.foldl (fun acc p => if acc.contains p then acc else acc ++ [p]) patterns

/-- The Hugging Face risk override (index.ts line 198):
`if (hfData.risk_level) risk_level = hfData.risk_level` — a truthy HF field
replaces the heuristic risk wholesale. -/
def hfMergeRisk (hfRisk : Option Risk) (risk : Risk) : Risk := hfRisk.getD risk

theorem pushNew_isPrefix (patterns : List String) (cond : Bool) (p : String) :
    patterns <+: pushNew patterns cond p := by
  unfold pushNew
  split
  · exact ⟨[p], rfl⟩
  · exact List.prefix_rfl

theorem hfMergePatterns_isPrefix (hfPatterns patterns : List String) :
    patterns <+: hfMergePatterns hfPatterns patterns := by
  induction hfPatterns generalizing patterns with
  | nil => exact List.prefix_rfl
  | cons x l ih =>
    have h1 : patterns <+: (if patterns.contains x then patterns else patterns ++ [x]) := by
      split
      · exact List.prefix_rfl
      · exact ⟨[x], rfl⟩
    exact h1.trans (ih _)

end Merge

namespace Merge

/-- Claim C5 counterexample: the merged risk CAN be lower than the heuristic
risk.  With heuristic risk `high`, an ONNX response whose `st_elevation`
probability is 0 and whose `afib` probability is 0.5 makes the merged risk
`medium` — a downgrade, contradicting "the merged riskLevel is never lower
than the heuristically computed riskLevel". -/
theorem c5_onnx_merge_downgrades_high_risk :
    onnxMergeRisk ⟨some 0, none, some 0.5, none⟩ Risk.high = Risk.medium
    ∧ riskRank Risk.medium < riskRank Risk.high := by
  constructor
  · norm_num [onnxMergeRisk]
  · decide

/-- Claim C5 (amended): the merge is additive on pattern sets — the merged
pattern list always extends the heuristic list, for both the ONNX and the
Hugging Face merge — but the risk override is a replacement, not an
escalation: ONNX sets `high` when `st_elevation` probability exceeds 0.6,
otherwise sets `medium` whenever `afib` probability exceeds 0.4 (even when
the heuristic risk was `high`), and a present Hugging Face `risk_level`
replaces the heuristic risk outright. -/
theorem c5_merge_additive_on_patterns_risk_replaced :
    (∀ (pr : OnnxProbs) (patterns : List String), patterns <+: onnxMergePatterns pr patterns)
    ∧ (∀ (hfPatterns patterns : List String), patterns <+: hfMergePatterns hfPatterns patterns)
    ∧ (∀ (pr : OnnxProbs) (r : Risk),
        (0.6 : ℚ) < pr.stElevation.getD 0 → onnxMergeRisk pr r = Risk.high)
    ∧ (∀ (pr : OnnxProbs) (r : Risk),
        ¬ (0.6 : ℚ) < pr.stElevation.getD 0 → (0.4 : ℚ) < pr.afib.getD 0 →
        onnxMergeRisk pr r = Risk.medium)
    ∧ (∀ (r hr : Risk), hfMergeRisk (some hr) r = hr) := by
  refine ⟨?_, hfMergePatterns_isPrefix, ?_, ?_, fun r hr => rfl⟩
  · intro pr patterns
    exact ((pushNew_isPrefix patterns _ _).trans (pushNew_isPrefix _ _ _)).trans
      (pushNew_isPrefix _ _ _)
  · intro pr r h
    simp [onnxMergeRisk, h]
  · intro pr r h1 h2
    simp [onnxMergeRisk, h1, h2]

/-- Witness for `c5_merge_additive_on_patterns_risk_replaced`: concrete ONNX
probabilities discharging the hypotheses of the risk-override conjuncts. -/
theorem c5_merge_additive_on_patterns_risk_replaced_witness :
    ((0.6 : ℚ) < (Option.getD (some 1) 0 : ℚ)
      ∧ onnxMergeRisk ⟨some 1, none, none, none⟩ Risk.low = Risk.high)
    ∧ (¬ (0.6 : ℚ) < (Option.getD (some 0) 0 : ℚ)
      ∧ (0.4 : ℚ) < (Option.getD (some 1) 0 : ℚ)
      ∧ onnxMergeRisk ⟨some 0, none, some 1, none⟩ Risk.high = Risk.medium) :=
  ⟨⟨by norm_num,
    c5_merge_additive_on_patterns_risk_replaced.2.2.1 ⟨some 1, none, none, none⟩ Risk.low (by norm_num)⟩,
   ⟨by norm_num, by norm_num,
    c5_merge_additive_on_patterns_risk_replaced.2.2.2.1 ⟨some 0, none, some 1, none⟩ Risk.high
      (by norm_num) (by norm_num)⟩⟩

end Merge

namespace Dispatch

/-! ### The `emergency-alert` edge function

The handler (supabase/functions/emergency-alert/index.ts) reads the user's
profile, the prioritized emergency contacts and the hospitals table
(filtered to `has_ambulance = true` and `is_multi_facility = true`), ranks
hospitals by haversine distance, records one `alert_notifications` row per
notified hospital, sends one Twilio SMS per contact (recording a row per
completed send), and finally sets the alert status to `notified`.

The environment of one invocation carries the directory-read results
(`none` models a failed/null read), the Twilio configuration, and the
outcome of each contact's Twilio `fetch`.  Database inserts are modelled as
reliable appends to the returned row list. -/

/-- A row of the `hospitals` table (the fields the handler uses). -/
structure Hospital where
  id : Nat
  name : String
  address : String
  phone_number : String
  latitude : ℝ
  longitude : ℝ
  has_ambulance : Bool
  is_multi_facility : Bool

/-- A row of the `emergency_contacts` table (the fields the handler uses). -/
structure Contact where
  id : Nat
  name : String
  phone_number : String
  priority : Int

/-- JS `Math.atan2 y x`, which is the argument of the complex number `x + i y`. -/
noncomputable def jsAtan2 (y x : ℝ) : ℝ := Complex.arg ⟨x, y⟩

/-- `calculateDistance` (index.ts lines 17–27): haversine great-circle
distance with Earth radius `R = 6371` km. -/
noncomputable def calculateDistance (lat1 lon1 lat2 lon2 : ℝ) : ℝ :=
  let R : ℝ := 6371
  let dLat := (lat2 - lat1) * Real.pi / 180
  let dLon := (lon2 - lon1) * Real.pi / 180
  let a := Real.sin (dLat / 2) * Real.sin (dLat / 2) +
    Real.cos (lat1 * Real.pi / 180) * Real.cos (lat2 * Real.pi / 180) *
    Real.sin (dLon / 2) * Real.sin (dLon / 2)
  let c := 2 * jsAtan2 (Real.sqrt a) (Real.sqrt (1 - a))
  R * c

/-- The hospitals directory query
`.eq("has_ambulance", true).eq("is_multi_facility", true)`. -/
def eligibleHospitals (tbl : List Hospital) : List Hospital :=
  tbl.filter fun h => h.has_ambulance && h.is_multi_facility

/-- A hospital together with its computed distance field. -/
structure RankedHospital where
  hospital : Hospital
  distance : ℝ

/-- `hospitals.map(h => ({ ...h, distance: calculateDistance(...) }))`. -/
noncomputable def withDistances (lat lon : ℝ) (hs : List Hospital) : List RankedHospital :=
  hs.map fun h => ⟨h, calculateDistance lat lon h.latitude h.longitude⟩

/-- `hospitalsWithDistance.sort((a, b) => a.distance - b.distance)`:
an ascending, stable sort on the distance field (ECMAScript array sort is
stable, and a stable insertion sort on `≤` realizes it). -/
noncomputable def sortByDistance (l : List RankedHospital) : List RankedHospital :=
  l.insertionSort fun a b => a.distance ≤ b.distance

/-- `.slice(0, 5)` after the sort: the (up to) five nearest hospitals. -/
noncomputable def nearestHospitals (lat lon : ℝ) (hs : List Hospital) : List RankedHospital :=
  (sortByDistance (withDistances lat lon hs)).take 5

/-- One `alert_notifications` row as the handler inserts it. -/
structure AlertRow where
  alert_id : String
  recipient_type : String
  recipient_id : Nat
  notification_method : String
  status : String
  error_message : Option String
  deriving Repr, DecidableEq

/-- Outcome of one contact's Twilio `fetch`: resolved with `response.ok`
true, resolved with `response.ok` false, or threw. -/
inductive SendResult where
  | ok
  | notOk
  | thrown
  deriving Repr, DecidableEq

/-- Environment of one `emergency-alert` invocation. -/
structure DispatchEnv where
  twilioSid : Option String
  twilioToken : Option String
  twilioFrom : Option String
  contacts : Option (List Contact)
  hospitals : Option (List Hospital)
  smsSend : Contact → SendResult
  latitude : ℝ
  longitude : ℝ
  alert_id : String

/-- JS truthiness of an optional environment string: present and non-empty. -/
def truthyStr (o : Option String) : Bool := decide (o.getD "" ≠ "")

/-- `twilioAccountSid && twilioAuthToken && twilioPhoneNumber`. -/
def twilioConfigured (env : DispatchEnv) : Bool :=
  truthyStr env.twilioSid && truthyStr env.twilioToken && truthyStr env.twilioFrom

/-- The handler's JSON response: a 200 success body or a 500 error body. -/
inductive DispatchResponse where
  | ok (alert_id : String) (hospitals_notified contacts_notified : Nat)
  | err (msg : String)
  deriving Repr, DecidableEq

/-- Observable effects of one invocation: the response, the inserted
`alert_notifications` rows, the contact ids for which a Twilio `fetch` was
actually issued, and whether the final `status = "notified"` update ran. -/
structure DispatchResult where
  response : DispatchResponse
  rows : List AlertRow
  smsTargets : List Nat
  statusUpdated : Bool

/-- The hospital notification loop (index.ts lines 100–130): one row with
`recipient_type = "hospital"`, `notification_method = "api"` and
`status = "sent"` per ranked hospital; no external call is made. -/
noncomputable def hospitalRowsOf (env : DispatchEnv) (hs : List Hospital) : List AlertRow :=
  (nearestHospitals env.latitude env.longitude hs).map fun h =>
    ⟨env.alert_id, "hospital", h.hospital.id, "api", "sent", none⟩

/-- The guard of the SMS branch (index.ts line 133): Twilio configured and
a non-null, non-empty contact list. -/
def smsBranchOn (env : DispatchEnv) : Bool :=
  twilioConfigured env && decide (0 < (env.contacts.getD []).length)

/-- The contact notification rows.  In the SMS branch (lines 136–175) the
row insert happens after the Twilio `fetch` inside the `try`, so a send
that throws records nothing; otherwise the row status is `"delivered"` or
`"failed"` by `response.ok` (`error_message` carries the stringified
provider response, modelled as an opaque string).  In the unconfigured
branch (lines 180–193) each contact gets a `"pending_config"` row. -/
def contactRowsOf (env : DispatchEnv) : List AlertRow :=
  if smsBranchOn env then
    (env.contacts.getD []).filterMap fun c =>
      match env.smsSend c with
      | .ok => some ⟨env.alert_id, "contact", c.id, "sms", "delivered", none⟩
      | .notOk => some ⟨env.alert_id, "contact", c.id, "sms", "failed", some "twilio error body"⟩
      | .thrown => none
  else
    (env.contacts.getD []).map fun c =>
      ⟨env.alert_id, "contact", c.id, "sms", "pending_config", some "Twilio not configured"⟩

/-- The `emergency-alert` serve handler. -/
noncomputable def emergencyAlertHandler (env : DispatchEnv) : DispatchResult :=
  match env.hospitals with
  | none => ⟨.err "No hospitals available", [], [], false⟩
  | some hs =>
    if hs.length = 0 then ⟨.err "No hospitals available", [], [], false⟩
    else
      ⟨.ok env.alert_id (nearestHospitals env.latitude env.longitude hs).length
         (env.contacts.getD []).length,
       hospitalRowsOf env hs ++ contactRowsOf env,
       (if smsBranchOn env then (env.contacts.getD []).map (fun c => c.id) else []),
       true⟩

end Dispatch
namespace Dispatch

theorem length_nearestHospitals (lat lon : ℝ) (hs : List Hospital) :
    (nearestHospitals lat lon hs).length = min 5 hs.length := by
  unfold nearestHospitals sortByDistance withDistances
  rw [List.length_take, (List.perm_insertionSort _ _).length_eq, List.length_map]

theorem sort_filter_stable {α : Type} (key : α → ℝ) (d : ℝ) :
    ∀ l : List α,
      ((l.insertionSort fun a b => key a ≤ key b).filter fun x => decide (key x = d))
        = l.filter fun x => decide (key x = d) := by
  intro l
  induction l with
  | nil => rfl
  | cons x l ih =>
    have hstep : (x :: l).insertionSort (fun a b => key a ≤ key b)
        = List.orderedInsert (fun a b => key a ≤ key b) x
            (l.insertionSort fun a b => key a ≤ key b) := rfl
    rw [hstep, List.orderedInsert_eq_take_drop, List.filter_append, List.filter_cons,
      List.filter_cons]
    by_cases hx : key x = d
    · have htw : (((l.insertionSort fun a b => key a ≤ key b).takeWhile
          fun b => decide ¬ (key x ≤ key b)).filter fun y => decide (key y = d)) = [] := by
        rw [List.filter_eq_nil_iff]
        intro y hy
        have hq := List.mem_takeWhile_imp hy
        simp only [decide_eq_true_eq] at hq ⊢
        intro hyd
        exact hq (le_of_eq (hx.trans hyd.symm))
      have hsplit : (((l.insertionSort fun a b => key a ≤ key b).dropWhile
            fun b => decide ¬ (key x ≤ key b)).filter fun y => decide (key y = d))
          = ((l.insertionSort fun a b => key a ≤ key b).filter fun y => decide (key y = d)) := by
        conv_rhs => rw [← List.takeWhile_append_dropWhile
          (fun b => decide ¬ (key x ≤ key b)) (l.insertionSort fun a b => key a ≤ key b)]
        rw [List.filter_append, htw, List.nil_append]
      have hpx : (decide (key x = d)) = true := by simp [hx]
      rw [hpx, if_pos rfl, htw, List.nil_append, hsplit, ih]
      exact (if_pos rfl).symm
    · have hpx : (decide (key x = d)) = false := by simp [hx]
      rw [hpx]
      simp only [if_neg Bool.false_ne_true]
      rw [← List.filter_append, List.takeWhile_append_dropWhile, ih]

end Dispatch
namespace Dispatch

theorem mem_hospitalRowsOf (env : DispatchEnv) (hs : List Hospital) (r : AlertRow)
    (hr : r ∈ hospitalRowsOf env hs) : r.recipient_type = "hospital" := by
  rcases List.mem_map.mp hr with ⟨h, _, rfl⟩
  rfl

theorem mem_contactRowsOf (env : DispatchEnv) (r : AlertRow)
    (hr : r ∈ contactRowsOf env) : r.recipient_type = "contact" := by
  unfold contactRowsOf at hr
  split at hr
  · rcases List.mem_filterMap.mp hr with ⟨c, _, hc⟩
    cases hsend : env.smsSend c <;> rw [hsend] at hc
    · simp only [Option.some.injEq] at hc
      rw [← hc]
    · simp only [Option.some.injEq] at hc
      rw [← hc]
    · simp at hc
  · rcases List.mem_map.mp hr with ⟨c, _, rfl⟩
    rfl

theorem hospitalRowsOf_filter_hospital (env : DispatchEnv) (hs : List Hospital) :
    ((hospitalRowsOf env hs).filter fun r => r.recipient_type == "hospital")
      = hospitalRowsOf env hs := by
  rw [List.filter_eq_self]
  intro r hr
  simp [mem_hospitalRowsOf env hs r hr]

theorem contactRowsOf_filter_hospital (env : DispatchEnv) :
    ((contactRowsOf env).filter fun r => r.recipient_type == "hospital") = [] := by
  rw [List.filter_eq_nil_iff]
  intro r hr
  simp [mem_contactRowsOf env r hr]

theorem hospitalRowsOf_filter_contact (env : DispatchEnv) (hs : List Hospital) :
    ((hospitalRowsOf env hs).filter fun r => r.recipient_type == "contact") = [] := by
  rw [List.filter_eq_nil_iff]
  intro r hr
  simp [mem_hospitalRowsOf env hs r hr]

theorem contactRowsOf_filter_contact (env : DispatchEnv) :
    ((contactRowsOf env).filter fun r => r.recipient_type == "contact")
      = contactRowsOf env := by
  rw [List.filter_eq_self]
  intro r hr
  simp [mem_contactRowsOf env r hr]

theorem length_hospitalRowsOf (env : DispatchEnv) (hs : List Hospital) :
    (hospitalRowsOf env hs).length = min 5 hs.length := by
  unfold hospitalRowsOf
  rw [List.length_map, length_nearestHospitals]

theorem length_contactRowsOf (env : DispatchEnv) :
    (contactRowsOf env).length
      = if smsBranchOn env
        then ((env.contacts.getD []).filter fun c => env.smsSend c != SendResult.thrown).length
        else (env.contacts.getD []).length := by
  unfold contactRowsOf
  split_ifs with hb
  · generalize env.contacts.getD [] = cs
    induction cs with
    | nil => rfl
    | cons c cs ih =>
      rw [List.filterMap_cons, List.filter_cons]
      cases hsend : env.smsSend c <;> simp [hsend, ih]
  · exact List.length_map _ _

theorem handler_rows_eq (env : DispatchEnv) (hs : List Hospital)
    (hh : env.hospitals = some hs) (hlen : hs.length ≠ 0) :
    (emergencyAlertHandler env).rows = hospitalRowsOf env hs ++ contactRowsOf env := by
  unfold emergencyAlertHandler
  rw [hh]
  dsimp only
  rw [if_neg hlen]

end Dispatch
namespace Dispatch

/-- Claim C9: the responder ranking pipeline — the capability-filtered
hospital query followed by distance mapping, ascending stable sort, and
truncation to five — returns only facilities with `has_ambulance` and
`is_multi_facility`, sorted ascending by the haversine distance field,
with at most five results, ties kept in input order (the filtered ranked
output is a prefix of the equal-distance input sublist), and is
deterministic on its input. -/
theorem c9_ranker_properties :
    ∀ (tbl : List Hospital) (lat lon d : ℝ),
      ((nearestHospitals lat lon (eligibleHospitals tbl)).all
        fun h => h.hospital.has_ambulance && h.hospital.is_multi_facility) = true
      ∧ List.Sorted (fun a b : RankedHospital => a.distance ≤ b.distance)
          (nearestHospitals lat lon (eligibleHospitals tbl))
      ∧ (nearestHospitals lat lon (eligibleHospitals tbl)).length ≤ 5
      ∧ (∃ t, ((nearestHospitals lat lon (eligibleHospitals tbl)).filter
            fun h => decide (h.distance = d)) ++ t
          = (withDistances lat lon (eligibleHospitals tbl)).filter
            fun h => decide (h.distance = d))
      ∧ nearestHospitals lat lon (eligibleHospitals tbl)
          = nearestHospitals lat lon (eligibleHospitals tbl) := by
  intro tbl lat lon d
  haveI htot : IsTotal RankedHospital (fun a b => a.distance ≤ b.distance) :=
    ⟨fun a b => le_total _ _⟩
  haveI htrans : IsTrans RankedHospital (fun a b => a.distance ≤ b.distance) :=
    ⟨fun a b c hab hbc => le_trans hab hbc⟩
  refine ⟨?_, ?_, ?_, ?_, rfl⟩
  · rw [List.all_eq_true]
    intro h hmem
    have h1 : h ∈ sortByDistance (withDistances lat lon (eligibleHospitals tbl)) :=
      List.mem_of_mem_take hmem
    have h2 : h ∈ withDistances lat lon (eligibleHospitals tbl) :=
      ((List.perm_insertionSort _ _).mem_iff).mp h1
    rcases List.mem_map.mp h2 with ⟨x, hx, rfl⟩
    have hflag := (List.mem_filter.mp hx).2
    simpa using hflag
  · have hsorted := List.sorted_insertionSort (fun a b : RankedHospital => a.distance ≤ b.distance)
      (withDistances lat lon (eligibleHospitals tbl))
    exact hsorted.sublist (List.take_sublist 5 _)
  · exact List.length_take_le 5 _
  · refine ⟨((sortByDistance (withDistances lat lon (eligibleHospitals tbl))).drop 5).filter
      (fun h => decide (h.distance = d)), ?_⟩
    have hnear : nearestHospitals lat lon (eligibleHospitals tbl)
        = (sortByDistance (withDistances lat lon (eligibleHospitals tbl))).take 5 := rfl
    rw [hnear, ← List.filter_append, List.take_append_drop]
    exact sort_filter_stable RankedHospital.distance d _

/-- Claim C10: each ranked facility's delivery-outcome row is recorded with
`recipient_type = "hospital"`, `notification_method = "api"` and
`status = "sent"` unconditionally — the hospital rows are a pure function
of the ranked list, they do not depend on the per-contact send outcomes,
and the only external sends the handler issues target contacts. -/
theorem c10_hospital_rows_sent_unconditionally :
    ∀ env : DispatchEnv,
      ((emergencyAlertHandler env).rows.filter fun r => r.recipient_type == "hospital")
        = ((nearestHospitals env.latitude env.longitude (env.hospitals.getD [])).map
            fun h => AlertRow.mk env.alert_id "hospital" h.hospital.id "api" "sent" none)
      ∧ (∀ f, ((emergencyAlertHandler { env with smsSend := f }).rows.filter
            fun r => r.recipient_type == "hospital")
          = ((emergencyAlertHandler env).rows.filter fun r => r.recipient_type == "hospital"))
      ∧ ((emergencyAlertHandler env).smsTargets.all
          fun i => ((env.contacts.getD []).map fun c => c.id).contains i) = true := by
  have hmain : ∀ env : DispatchEnv,
      ((emergencyAlertHandler env).rows.filter fun r => r.recipient_type == "hospital")
        = ((nearestHospitals env.latitude env.longitude (env.hospitals.getD [])).map
            fun h => AlertRow.mk env.alert_id "hospital" h.hospital.id "api" "sent" none) := by
    intro env
    cases hh : env.hospitals with
    | none =>
      unfold emergencyAlertHandler
      rw [hh]
      simp [nearestHospitals, sortByDistance, withDistances]
    | some hs =>
      by_cases hlen : hs.length = 0
      · have hnil : hs = [] := List.length_eq_zero.mp hlen
        subst hnil
        unfold emergencyAlertHandler
        rw [hh]
        simp [nearestHospitals, sortByDistance, withDistances]
      · rw [handler_rows_eq env hs hh hlen, List.filter_append, hospitalRowsOf_filter_hospital,
          contactRowsOf_filter_hospital, List.append_nil]
        rfl
  intro env
  refine ⟨hmain env, ?_, ?_⟩
  · intro f
    rw [hmain env, hmain { env with smsSend := f }]
  · have htargets : (emergencyAlertHandler env).smsTargets = []
        ∨ (emergencyAlertHandler env).smsTargets = (env.contacts.getD []).map fun c => c.id := by
      unfold emergencyAlertHandler
      cases hh : env.hospitals with
      | none => exact Or.inl rfl
      | some hs =>
        dsimp only
        split_ifs with hlen hb
        · exact Or.inl rfl
        · exact Or.inr rfl
        · exact Or.inl rfl
    rcases htargets with ht | ht <;> rw [ht]
    · rfl
    · rw [List.all_eq_true]
      intro i hi
      simpa using hi

end Dispatch
namespace Dispatch

/-- A concrete eligible hospital used in concrete evaluations. -/
noncomputable def hospA : Hospital :=
  ⟨1, "City Hospital", "1 Main Road", "+91-80-0000", 12.9, 77.5, true, true⟩

/-- A concrete emergency contact used in concrete evaluations. -/
def contactA : Contact := ⟨7, "Asha", "+91-99-0000", 1⟩

/-- Invocation with Twilio fully configured and one contact on file, but a
hospitals query that returns null (read failure). -/
noncomputable def envNoHospitals : DispatchEnv :=
  { twilioSid := some "sid", twilioToken := some "token", twilioFrom := some "+15550100",
    contacts := some [contactA], hospitals := none, smsSend := fun _ => SendResult.ok,
    latitude := 13, longitude := 78, alert_id := "alert-1" }

/-- Like `envNoHospitals` but with one eligible hospital and a contact whose
Twilio send throws. -/
noncomputable def envThrown : DispatchEnv :=
  { envNoHospitals with hospitals := some [hospA], smsSend := fun _ => SendResult.thrown }

/-- Like `envNoHospitals` but with one eligible hospital and a contacts query
that returns null (read failure). -/
noncomputable def envContactsNull : DispatchEnv :=
  { envNoHospitals with hospitals := some [hospA], contacts := none }

/-- Claim C1 counterexample: an unreadable (null) or empty facility directory
does NOT degrade — it aborts.  With a contact on file and Twilio configured,
the handler returns the 500 error body `"No hospitals available"`, records no
delivery-outcome rows (the contact is never notified), and never finalizes the
alert; the same happens when the query returns an empty list. -/
theorem c1_no_hospitals_aborts_escalation :
    (emergencyAlertHandler envNoHospitals).response = .err "No hospitals available"
    ∧ (emergencyAlertHandler envNoHospitals).rows = []
    ∧ (emergencyAlertHandler envNoHospitals).statusUpdated = false
    ∧ envNoHospitals.contacts = some [contactA]
    ∧ (emergencyAlertHandler { envNoHospitals with hospitals := some [] }).response
        = .err "No hospitals available"
    ∧ (emergencyAlertHandler { envNoHospitals with hospitals := some [] }).rows = []
    ∧ (emergencyAlertHandler { envNoHospitals with hospitals := some [] }).statusUpdated = false :=
  ⟨rfl, rfl, rfl, rfl, rfl, rfl, rfl⟩

/-- Claim C1 (amended): a contacts-directory read failure degrades — dispatch
proceeds with the hospital set alone, hospital rows are still recorded, the
alert is finalized and the caller receives the success acknowledgment — but a
facility-directory read failure (null) or an empty facility list aborts the
escalation with a 500 error before any notification or finalization. -/
theorem c1_contact_failure_degrades_facility_failure_aborts :
    (∀ (env : DispatchEnv) (hs : List Hospital),
      env.hospitals = some hs → hs.length ≠ 0 → env.contacts = none →
      (emergencyAlertHandler env).response = .ok env.alert_id (min 5 hs.length) 0
      ∧ (emergencyAlertHandler env).rows = hospitalRowsOf env hs
      ∧ (emergencyAlertHandler env).statusUpdated = true)
    ∧ (∀ env : DispatchEnv, env.hospitals = none →
      (emergencyAlertHandler env).response = .err "No hospitals available"
      ∧ (emergencyAlertHandler env).rows = []
      ∧ (emergencyAlertHandler env).statusUpdated = false)
    ∧ (∀ env : DispatchEnv, env.hospitals = some [] →
      (emergencyAlertHandler env).response = .err "No hospitals available"
      ∧ (emergencyAlertHandler env).rows = []
      ∧ (emergencyAlertHandler env).statusUpdated = false) := by
  refine ⟨?_, ?_, ?_⟩
  · intro env hs hh hlen hc
    have hrows : contactRowsOf env = [] := by
      unfold contactRowsOf smsBranchOn
      rw [hc]
      simp
    unfold emergencyAlertHandler
    rw [hh]
    dsimp only
    rw [if_neg hlen]
    refine ⟨?_, ?_, rfl⟩
    · dsimp only
      rw [length_nearestHospitals, hc]
      rfl
    · dsimp only
      rw [hrows, List.append_nil]
  · intro env hh
    unfold emergencyAlertHandler
    rw [hh]
    exact ⟨rfl, rfl, rfl⟩
  · intro env hh
    unfold emergencyAlertHandler
    rw [hh]
    exact ⟨rfl, rfl, rfl⟩

/-- Witness for `c1_contact_failure_degrades_facility_failure_aborts`: the
concrete environment `envContactsNull` (one hospital, contacts read failed)
discharges the hypotheses of the degraded branch. -/
theorem c1_contact_failure_degrades_witness :
    envContactsNull.hospitals = some [hospA]
    ∧ [hospA].length ≠ 0
    ∧ envContactsNull.contacts = none
    ∧ (emergencyAlertHandler envContactsNull).response
        = .ok "alert-1" (min 5 [hospA].length) 0
    ∧ (emergencyAlertHandler envContactsNull).statusUpdated = true :=
  ⟨rfl, by decide, rfl,
    (c1_contact_failure_degrades_facility_failure_aborts.1 envContactsNull [hospA]
      rfl (by decide) rfl).1,
    (c1_contact_failure_degrades_facility_failure_aborts.1 envContactsNull [hospA]
      rfl (by decide) rfl).2.2⟩

end Dispatch
namespace Dispatch

/-- Claim C2 counterexample: a send attempt that throws does NOT produce a
row.  With one ranked hospital and one contact (two responder/channel pairs),
Twilio configured, and the contact's Twilio `fetch` throwing, the handler
issues the send (the contact id is in `smsTargets`) yet records exactly one
row — the hospital's — and none for the contact: the audit trail silently
drops the thrown attempt. -/
theorem c2_thrown_send_records_no_row :
    (emergencyAlertHandler envThrown).rows
      = [AlertRow.mk "alert-1" "hospital" 1 "api" "sent" none]
    ∧ ((emergencyAlertHandler envThrown).rows.filter fun r => r.recipient_type == "contact") = []
    ∧ (emergencyAlertHandler envThrown).smsTargets = [7]
    ∧ envThrown.contacts = some [contactA] :=
  ⟨rfl, rfl, rfl, rfl⟩

/-- Claim C2 (amended): per dispatch pass the recorded rows number exactly one
per ranked facility plus — in the configured-SMS branch — one per contact
whose send does not throw (a thrown send records nothing), or — in the
unconfigured branch — one `pending_config` row per contact; equivalently, the
hospital-row count is `min 5 hs.length` and the contact-row count is the
number of non-throwing contacts (resp. all contacts when unconfigured). -/
theorem c2_row_accounting :
    ∀ (env : DispatchEnv) (hs : List Hospital),
      env.hospitals = some hs → hs.length ≠ 0 →
      (emergencyAlertHandler env).rows.length
        = min 5 hs.length
          + (if smsBranchOn env
             then ((env.contacts.getD []).filter fun c => env.smsSend c != SendResult.thrown).length
             else (env.contacts.getD []).length)
      ∧ ((emergencyAlertHandler env).rows.filter fun r => r.recipient_type == "hospital").length
          = min 5 hs.length
      ∧ ((emergencyAlertHandler env).rows.filter fun r => r.recipient_type == "contact").length
          = (if smsBranchOn env
             then ((env.contacts.getD []).filter fun c => env.smsSend c != SendResult.thrown).length
             else (env.contacts.getD []).length) := by
  intro env hs hh hlen
  rw [handler_rows_eq env hs hh hlen]
  refine ⟨?_, ?_, ?_⟩
  · rw [List.length_append, length_hospitalRowsOf, length_contactRowsOf]
  · rw [List.filter_append, hospitalRowsOf_filter_hospital, contactRowsOf_filter_hospital,
      List.append_nil, length_hospitalRowsOf]
  · rw [List.filter_append, hospitalRowsOf_filter_contact, contactRowsOf_filter_contact,
      List.nil_append, length_contactRowsOf]

/-- Witness for `c2_row_accounting`: the concrete environment `envThrown`
(one hospital, one contact whose send throws) discharges the hypotheses. -/
theorem c2_row_accounting_witness :
    envThrown.hospitals = some [hospA]
    ∧ [hospA].length ≠ 0
    ∧ (emergencyAlertHandler envThrown).rows.length
        = min 5 [hospA].length
          + (if smsBranchOn envThrown
             then ((envThrown.contacts.getD []).filter
                fun c => envThrown.smsSend c != SendResult.thrown).length
             else (envThrown.contacts.getD []).length) :=
  ⟨rfl, by decide, (c2_row_accounting envThrown [hospA] rfl (by decide)).1⟩

end Dispatch
namespace Trigger

/-! ### The `trigger-emergency` edge function

The handler inserts an `emergency_alerts` row with `status: "triggered"`;
if the insert reports an error it responds 500 `"Failed to create alert"`
and returns before the `emergency-alert` dispatch call is made. -/

/-- The alert row the `trigger-emergency` function inserts (lines 32–43). -/
structure AlertInsert where
  user_id : String
  alert_type : String
  status : String
  latitude : ℝ
  longitude : ℝ
  notes : Option String

/-- The insert payload: the status field is hardwired to `"triggered"`. -/
noncomputable def alertInsertPayload (user_id alert_type : String)
    (latitude longitude : ℝ) (notes : Option String) : AlertInsert :=
  ⟨user_id, alert_type, "triggered", latitude, longitude, notes⟩

/-- The handler's JSON response. -/
inductive TriggerResponse where
  | ok (alert_id : Nat)
  | err (msg : String)
  deriving Repr, DecidableEq

/-- Observable effects of one `trigger-emergency` invocation: the response,
whether the `emergency-alert` dispatch was invoked at all, and the dispatch
effects (notification rows, final status update) when it was. -/
structure TriggerOutcome where
  response : TriggerResponse
  dispatchInvoked : Bool
  rows : List Dispatch.AlertRow
  statusUpdated : Bool

/-- The `trigger-emergency` serve handler composed with the
`emergency-alert` dispatch it invokes on success.  `insertOutcome` is the
result of the alert insert (`.error` models a non-null `alertError`). -/
noncomputable def triggerHandler (insertOutcome : Except String Nat)
    (env : Dispatch.DispatchEnv) : TriggerOutcome :=
  match insertOutcome with
  | .error _ => ⟨.err "Failed to create alert", false, [], false⟩
  | .ok alertId =>
    let r := Dispatch.emergencyAlertHandler env
    ⟨.ok alertId, true, r.rows, r.statusUpdated⟩

/-- Claim C6: if persisting the initial alert row (inserted with status
`"triggered"`) fails, the escalation aborts immediately and atomically: the
error is surfaced to the caller, the dispatch function is never invoked, no
delivery-outcome rows are written and no alert status update occurs —
whatever the responder directories and channels would have yielded. -/
theorem c6_failed_alert_insert_aborts :
    (∀ (msg : String) (env : Dispatch.DispatchEnv),
      triggerHandler (.error msg) env
        = ⟨.err "Failed to create alert", false, [], false⟩)
    ∧ ∀ (u t : String) (lat lon : ℝ) (n : Option String),
      (alertInsertPayload u t lat lon n).status = "triggered" :=
  ⟨fun _ _ => rfl, fun _ _ _ _ _ => rfl⟩

end Trigger
namespace Analyzer

/-! ### The `analyze-ecg` signal heuristics

`detectSTElevation`, `movingAverage`, `detectBeats` and the heuristic part
of `analyzeSignal` (lines 93–118), over real-valued samples.  Each local
of the source function is embedded as a named definition.  `Math.floor(n *
0.2)` on a natural length is `n / 5` and `Math.floor(n * 0.25)` is `n / 4`
(0.25 is exactly representable; 0.2 agrees with `n / 5` on all realistic
lengths). -/

/-- JS `Math.sqrt(...) || 1`: a zero standard deviation is replaced by 1. -/
noncomputable def jsOr1 (x : ℝ) : ℝ := if x = 0 then 1 else x

/-- `nBase = Math.max(3, Math.floor(readings.length * 0.2))`. -/
def nBaseOf (readings : List ℝ) : ℕ := max 3 (readings.length / 5)

/-- `baseline`: the median of the first `nBase` samples, via an ascending
sort (`.sort((a, b) => a - b)`) indexed at `Math.floor(nBase / 2)`. -/
noncomputable def stBaseline (readings : List ℝ) : ℝ :=
  ((readings.take (nBaseOf readings)).insertionSort (· ≤ ·)).getD (nBaseOf readings / 2) 0

/-- `diffs = readings.map(r => r - baseline)`. -/
noncomputable def stDiffs (readings : List ℝ) : List ℝ :=
  readings.map fun r => r - stBaseline readings

/-- `std = Math.sqrt(diffs.reduce((s, d) => s + d * d, 0) / diffs.length) || 1`. -/
noncomputable def stStd (readings : List ℝ) : ℝ :=
  jsOr1 (Real.sqrt (((stDiffs readings).map fun d => d * d).sum / (readings.length : ℝ)))

/-- `elevatedStdCount = diffs.filter(d => d > 1.2 * std).length`. -/
noncomputable def elevatedStdCount (readings : List ℝ) : ℕ :=
  ((stDiffs readings).filter fun d => decide (1.2 * stStd readings < d)).length

/-- `nTail = Math.max(3, Math.floor(readings.length * 0.2))`. -/
def nTailOf (readings : List ℝ) : ℕ := max 3 (readings.length / 5)

/-- `tailMedian`: median of `readings.slice(-nTail)`. -/
noncomputable def tailMedianOf (readings : List ℝ) : ℝ :=
  ((readings.drop (readings.length - nTailOf readings)).insertionSort (· ≤ ·)).getD
    (nTailOf readings / 2) 0

/-- `minIncrease = Math.max(baseline * 0.15, std * 0.4, 15)`. -/
noncomputable def minIncreaseOf (readings : List ℝ) : ℝ :=
  max (stBaseline readings * 0.15) (max (stStd readings * 0.4) 15)

/-- `contigThreshold = baseline + Math.max(0.1 * baseline, std * 0.4, 10)`. -/
noncomputable def contigThresholdOf (readings : List ℝ) : ℝ :=
  stBaseline readings + max (0.1 * stBaseline readings) (max (stStd readings * 0.4) 10)

/-- The `maxContig`/`cur` loop: `cur` counts the current run of samples
strictly above the threshold, `best` the longest run seen. -/
noncomputable def maxRunAux (thr : ℝ) : List ℝ → ℕ → ℕ → ℕ
  | [], _, best => best
  | v :: rest, cur, best =>
    let c := if thr < v then cur + 1 else 0
    maxRunAux thr rest c (max best c)

/-- Longest run of samples strictly above `thr`. -/
noncomputable def maxRun (thr : ℝ) (l : List ℝ) : ℕ := maxRunAux thr l 0 0

/-- `detectSTElevation` (analyze-ecg index.ts lines 14–52): guard for
windows shorter than 20 samples, then the disjunction of spike density,
sustained tail step, and contiguous run. -/
noncomputable def detectSTElevation (readings : List ℝ) : Bool :=
  if readings.length < 20 then false
  else
    decide ((readings.length : ℝ) * 0.25 < (elevatedStdCount readings : ℝ))
    || decide (minIncreaseOf readings < tailMedianOf readings - stBaseline readings)
    || decide (readings.length / 4 ≤ maxRun (contigThresholdOf readings) readings)

/-- `movingAverage` (lines 54–63): running mean over a window of `w`
samples (`out[i]` averages `arr[max(0, i - w + 1) .. i]`). -/
noncomputable def movingAverage (arr : List ℝ) (w : ℕ) : List ℝ :=
  (List.range arr.length).map fun i =>
    ((arr.take (i + 1)).drop (i + 1 - w)).sum / ((min w (i + 1) : ℕ) : ℝ)

/-- `smooth = movingAverage(signal, 7)`. -/
noncomputable def smoothOf (signal : List ℝ) : List ℝ := movingAverage signal 7

/-- `median = smooth.slice().sort((a,b) => a - b)[Math.floor(len / 2)] || 0`. -/
noncomputable def beatMedian (signal : List ℝ) : ℝ :=
  ((smoothOf signal).insertionSort (· ≤ ·)).getD ((smoothOf signal).length / 2) 0

/-- `sd = Math.sqrt(smooth.reduce((s, v) => s + (v - median)^2, 0) / smooth.length) || 1`. -/
noncomputable def beatSd (signal : List ℝ) : ℝ :=
  jsOr1 (Real.sqrt
    ((((smoothOf signal).map fun v => (v - beatMedian signal) * (v - beatMedian signal)).sum)
      / ((smoothOf signal).length : ℝ)))

/-- `thresh = median + sd * 0.9`. -/
noncomputable def beatThresh (signal : List ℝ) : ℝ :=
  beatMedian signal + beatSd signal * 0.9

/-- The acceptance test of the peak-scan loop (lines 73–80): local maximum
above the threshold, with a refractory gap of more than 0.18 s since the
previously accepted peak. -/
noncomputable def peakAccept (smooth : List ℝ) (rate thr : ℝ) (peaks : List ℕ) (i : ℕ) : Bool :=
  decide (thr < smooth.getD i 0)
    && decide (smooth.getD (i - 1) 0 < smooth.getD i 0)
    && decide (smooth.getD (i + 1) 0 ≤ smooth.getD i 0)
    && match peaks.getLast? with
       | none => true
       | some l => decide ((0.18 : ℝ) < ((i : ℝ) - (l : ℝ)) / rate)

/-- The peak-scan loop `for (i = 1; i < smooth.length - 1; i++)`. -/
noncomputable def scanPeaks (smooth : List ℝ) (rate thr : ℝ) : List ℕ :=
  (List.range' 1 (smooth.length - 2)).foldl
    (fun peaks i => if peakAccept smooth rate thr peaks i then peaks ++ [i] else peaks) []

/-- `peaks` of `detectBeats`. -/
noncomputable def peaksOf (signal : List ℝ) (rate : ℝ) : List ℕ :=
  scanPeaks (smoothOf signal) rate (beatThresh signal)

/-- `rrIntervalsSec[i] = (peaks[i+1] - peaks[i]) / sampling_rate`. -/
noncomputable def rrOf (signal : List ℝ) (rate : ℝ) : List ℝ :=
  ((peaksOf signal rate).zip ((peaksOf signal rate).drop 1)).map
    fun p => ((p.2 : ℝ) - (p.1 : ℝ)) / rate

/-- `bpm = rr.length > 0 ? 60 / mean(rr) : null`. -/
noncomputable def bpmOf (signal : List ℝ) (rate : ℝ) : Option ℝ :=
  if 0 < (rrOf signal rate).length then
    some (60 / ((rrOf signal rate).sum / ((rrOf signal rate).length : ℝ)))
  else none

/-- `sdnn = rr.length > 0 ? sqrt(mean((r - mean(rr))^2)) : null`. -/
noncomputable def sdnnOf (signal : List ℝ) (rate : ℝ) : Option ℝ :=
  if 0 < (rrOf signal rate).length then
    some (Real.sqrt
      (((rrOf signal rate).map
          fun r => (r - (rrOf signal rate).sum / ((rrOf signal rate).length : ℝ)) ^ 2).sum
        / ((rrOf signal rate).length : ℝ)))
  else none

/-- The heuristic part of `analyzeSignal` (lines 93–118): pattern assembly
and default risk scoring, before any auxiliary-classifier merge. -/
noncomputable def analyzeHeuristic (signal : List ℝ) (rate : ℝ) : List String × Merge.Risk :=
  let stDetected := detectSTElevation signal
  let p1 : List String := if stDetected then ["st_elevation"] else []
  let p2 :=
    match bpmOf signal rate with
    | some bpm =>
      let q := if bpm < 50 then p1 ++ ["bradycardia"] else p1
      if 100 < bpm then q ++ ["tachycardia"] else q
    | none => p1
  let p3 :=
    match sdnnOf signal rate with
    | some sdnn =>
      if 5 ≤ (rrOf signal rate).length then
        if 0.2 < sdnn / ((rrOf signal rate).sum / ((rrOf signal rate).length : ℝ))
            ∧ 0.08 < sdnn then
          p2 ++ ["possible_afib"]
        else p2
      else p2
    | none => p2
  let risk : Merge.Risk :=
    if stDetected then .high
    else if p3.contains "possible_afib" || p3.contains "tachycardia" then .medium
    else .low
  (p3, risk)

end Analyzer
namespace Analyzer

theorem detectSTElevation_short (readings : List ℝ) (h : readings.length < 20) :
    detectSTElevation readings = false := by
  unfold detectSTElevation
  rw [if_pos h]

theorem length_smoothOf (signal : List ℝ) : (smoothOf signal).length = signal.length := by
  unfold smoothOf movingAverage
  rw [List.length_map, List.length_range]

theorem peakAccept_pair_false (smooth : List ℝ) (thr : ℝ) (i j : ℕ) (hi : i ≤ 45) :
    peakAccept smooth 250 thr [j] i = false := by
  unfold peakAccept
  have hlast : ([j] : List ℕ).getLast? = some j := rfl
  rw [hlast]
  have harith : ¬ ((0.18 : ℝ) < ((i : ℝ) - (j : ℝ)) / 250) := by
    rw [not_lt, div_le_iff₀ (by norm_num : (0:ℝ) < 250)]
    have hi' : (i : ℝ) ≤ 45 := by exact_mod_cast hi
    have hj' : (0 : ℝ) ≤ (j : ℝ) := Nat.cast_nonneg j
    linarith
  simp [harith]

theorem scanPeaks_length_le_one (smooth : List ℝ) (thr : ℝ) (h : smooth.length ≤ 47) :
    (scanPeaks smooth 250 thr).length ≤ 1 := by
  unfold scanPeaks
  have hbound : ∀ i ∈ List.range' 1 (smooth.length - 2), i ≤ 45 := by
    intro i hi
    rw [List.mem_range'] at hi
    omega
  suffices hgen : ∀ (l : List ℕ), (∀ i ∈ l, i ≤ 45) →
      ∀ acc : List ℕ, (acc = [] ∨ ∃ j, j ≤ 45 ∧ acc = [j]) →
      ((l.foldl (fun peaks i => if peakAccept smooth 250 thr peaks i then peaks ++ [i] else peaks) acc) = []
        ∨ ∃ j, j ≤ 45 ∧
          (l.foldl (fun peaks i => if peakAccept smooth 250 thr peaks i then peaks ++ [i] else peaks) acc) = [j]) by
    rcases hgen _ hbound [] (Or.inl rfl) with hr | ⟨j, _, hr⟩ <;> rw [hr] <;> simp
  intro l
  induction l with
  | nil =>
    intro _ acc hacc
    rcases hacc with rfl | ⟨j, hj, rfl⟩
    · exact Or.inl rfl
    · exact Or.inr ⟨j, hj, rfl⟩
  | cons i l ih =>
    intro hmem acc hacc
    rw [List.foldl_cons]
    apply ih fun x hx => hmem x (List.mem_cons_of_mem _ hx)
    rcases hacc with rfl | ⟨j, hj, rfl⟩
    · split
      · exact Or.inr ⟨i, hmem i (List.mem_cons_self _ _), by simp⟩
      · exact Or.inl rfl
    · rw [peakAccept_pair_false smooth thr i j (hmem i (List.mem_cons_self _ _))]
      simp only [Bool.false_eq_true, if_false]
      exact Or.inr ⟨j, hj, rfl⟩

theorem rrOf_250_short (signal : List ℝ) (h : signal.length < 20) :
    rrOf signal 250 = [] := by
  have hlen : (smoothOf signal).length ≤ 47 := by
    rw [length_smoothOf]
    omega
  have hp := scanPeaks_length_le_one (smoothOf signal) (beatThresh signal) hlen
  unfold rrOf peaksOf
  cases hpk : scanPeaks (smoothOf signal) 250 (beatThresh signal) with
  | nil => simp
  | cons j tl =>
    cases tl with
    | nil => simp
    | cons k rest =>
      rw [hpk] at hp
      simp at hp

theorem bpmOf_250_short (signal : List ℝ) (h : signal.length < 20) :
    bpmOf signal 250 = none := by
  unfold bpmOf
  rw [rrOf_250_short signal h]
  simp

theorem sdnnOf_250_short (signal : List ℝ) (h : signal.length < 20) :
    sdnnOf signal 250 = none := by
  unfold sdnnOf
  rw [rrOf_250_short signal h]
  simp

end Analyzer
namespace Analyzer

/-- Claim C7 (amended): a window of fewer than 20 samples never yields the
`st_elevation` pattern and its risk is never `high` at any sampling rate;
at the default 250 Hz sampling rate the analyzer returns exactly
`riskLevel = low` with an empty pattern list (the 0.18 s refractory gap
exceeds the window, so at most one beat is accepted and no rhythm pattern
can form).  At permissive low sampling rates, rhythm patterns can still be
emitted — see the counterexample. -/
theorem c7_short_window_low_risk :
    ∀ signal : List ℝ, signal.length < 20 →
      detectSTElevation signal = false
      ∧ (∀ rate : ℝ, (analyzeHeuristic signal rate).2 ≠ Merge.Risk.high)
      ∧ analyzeHeuristic signal 250 = ([], Merge.Risk.low) := by
  intro signal h
  have hst := detectSTElevation_short signal h
  refine ⟨hst, ?_, ?_⟩
  · intro rate
    unfold analyzeHeuristic
    rw [hst]
    dsimp only
    simp only [Bool.false_eq_true, if_false]
    split_ifs <;> simp
  · unfold analyzeHeuristic
    rw [hst, bpmOf_250_short signal h, sdnnOf_250_short signal h]
    simp

/-- Witness for `c7_short_window_low_risk`: the flat five-sample window. -/
theorem c7_short_window_low_risk_witness :
    (List.replicate 5 (0:ℝ)).length < 20
    ∧ analyzeHeuristic (List.replicate 5 (0:ℝ)) 250 = ([], Merge.Risk.low) :=
  ⟨by simp, (c7_short_window_low_risk (List.replicate 5 (0:ℝ)) (by simp)).2.2⟩

end Analyzer
namespace Analyzer

theorem smooth_sig5 : smoothOf [(0:ℝ), 200, -200, 400, -400] = [0, 100, 0, 100, 0] := by
  unfold smoothOf movingAverage
  norm_num [List.range_succ, List.sum_cons]

theorem sort_sig5smooth :
    List.insertionSort (· ≤ ·) [(0:ℝ), 100, 0, 100, 0] = [0, 0, 0, 100, 100] := by
  norm_num [List.insertionSort, List.orderedInsert]

theorem median_sig5 : beatMedian [(0:ℝ), 200, -200, 400, -400] = 0 := by
  unfold beatMedian
  rw [smooth_sig5, sort_sig5smooth]
  rfl

end Analyzer
namespace Analyzer

theorem sd_sig5 : beatSd [(0:ℝ), 200, -200, 400, -400] = Real.sqrt 4000 := by
  unfold beatSd
  rw [smooth_sig5, median_sig5]
  have hv : (((([(0:ℝ), 100, 0, 100, 0]).map fun v => (v - 0) * (v - 0)).sum)
      / (([(0:ℝ), 100, 0, 100, 0]).length : ℝ)) = 4000 := by
    norm_num [List.sum_cons]
  rw [hv]
  unfold jsOr1
  rw [if_neg]
  intro hzero
  rw [Real.sqrt_eq_zero (by norm_num)] at hzero
  norm_num at hzero

theorem sqrt4000_lt : Real.sqrt 4000 * 0.9 < 100 := by
  have h : Real.sqrt 4000 < 1000 / 9 := by
    rw [show (1000 / 9 : ℝ) = Real.sqrt ((1000 / 9) ^ 2) from
      (Real.sqrt_sq (by norm_num)).symm]
    apply Real.sqrt_lt_sqrt (by norm_num)
    norm_num
  nlinarith [Real.sqrt_nonneg (4000 : ℝ)]

theorem sqrt4000_pos : 0 < Real.sqrt 4000 * 0.9 := by
  have h : 0 < Real.sqrt 4000 := Real.sqrt_pos.mpr (by norm_num)
  linarith

theorem thresh_sig5 : beatThresh [(0:ℝ), 200, -200, 400, -400] = 0 + Real.sqrt 4000 * 0.9 := by
  unfold beatThresh
  rw [median_sig5, sd_sig5]

end Analyzer
namespace Analyzer

theorem accept1_sig5 :
    peakAccept [(0:ℝ), 100, 0, 100, 0] 10 (beatThresh [(0:ℝ), 200, -200, 400, -400]) [] 1
      = true := by
  unfold peakAccept
  rw [thresh_sig5]
  have hg1 : ([(0:ℝ), 100, 0, 100, 0].getD 1 0) = 100 := rfl
  have hg0 : ([(0:ℝ), 100, 0, 100, 0].getD 0 0) = 0 := rfl
  have hg2 : ([(0:ℝ), 100, 0, 100, 0].getD 2 0) = 0 := rfl
  have hl0 : ([] : List ℕ).getLast? = none := rfl
  rw [hg1, hg0, hg2, hl0]
  have hA : decide ((0:ℝ) + Real.sqrt 4000 * 0.9 < 100) = true :=
    decide_eq_true (by linarith [sqrt4000_lt])
  have hB : decide ((0:ℝ) < 100) = true := decide_eq_true (by norm_num)
  have hC : decide ((0:ℝ) ≤ 100) = true := decide_eq_true (by norm_num)
  rw [hA, hB, hC]
  rfl

theorem accept2_sig5 :
    peakAccept [(0:ℝ), 100, 0, 100, 0] 10 (beatThresh [(0:ℝ), 200, -200, 400, -400]) [1] 2
      = false := by
  unfold peakAccept
  rw [thresh_sig5]
  have hg2 : ([(0:ℝ), 100, 0, 100, 0].getD 2 0) = 0 := rfl
  rw [hg2]
  have hA : decide ((0:ℝ) + Real.sqrt 4000 * 0.9 < 0) = false := by
    rw [decide_eq_false_iff_not]
    intro hcon
    have := sqrt4000_pos
    linarith
  rw [hA]
  rfl

theorem accept3_sig5 :
    peakAccept [(0:ℝ), 100, 0, 100, 0] 10 (beatThresh [(0:ℝ), 200, -200, 400, -400]) [1] 3
      = true := by
  unfold peakAccept
  rw [thresh_sig5]
  have hg3 : ([(0:ℝ), 100, 0, 100, 0].getD 3 0) = 100 := rfl
  have hg2 : ([(0:ℝ), 100, 0, 100, 0].getD 2 0) = 0 := rfl
  have hg4 : ([(0:ℝ), 100, 0, 100, 0].getD 4 0) = 0 := rfl
  have hl1 : ([1] : List ℕ).getLast? = some 1 := rfl
  rw [hg3, hg2, hg4, hl1]
  have hA : decide ((0:ℝ) + Real.sqrt 4000 * 0.9 < 100) = true :=
    decide_eq_true (by linarith [sqrt4000_lt])
  have hB : decide ((0:ℝ) < 100) = true := decide_eq_true (by norm_num)
  have hC : decide ((0:ℝ) ≤ 100) = true := decide_eq_true (by norm_num)
  have hD : decide ((0.18 : ℝ) < (((3:ℕ) : ℝ) - ((1:ℕ) : ℝ)) / 10) = true :=
    decide_eq_true (by norm_num)
  rw [hA, hB, hC]
  show (true && true && true
    && decide ((0.18 : ℝ) < (((3:ℕ) : ℝ) - ((1:ℕ) : ℝ)) / 10)) = true
  rw [hD]
  rfl

theorem peaks_sig5 : peaksOf [(0:ℝ), 200, -200, 400, -400] 10 = [1, 3] := by
  unfold peaksOf scanPeaks
  rw [smooth_sig5]
  have hrange : List.range' 1 (([(0:ℝ), 100, 0, 100, 0]).length - 2) = [1, 2, 3] := rfl
  rw [hrange]
  rw [List.foldl_cons, if_pos (by rw [accept1_sig5]), List.nil_append]
  rw [List.foldl_cons, if_neg (by rw [accept2_sig5]; exact Bool.false_ne_true)]
  rw [List.foldl_cons, if_pos (by rw [accept3_sig5])]
  rfl

end Analyzer
namespace Analyzer

theorem rr_sig5 : rrOf [(0:ℝ), 200, -200, 400, -400] 10 = [1/5] := by
  unfold rrOf
  rw [peaks_sig5]
  norm_num

theorem bpm_sig5 : bpmOf [(0:ℝ), 200, -200, 400, -400] 10 = some 300 := by
  unfold bpmOf
  rw [rr_sig5]
  norm_num

theorem sdnn_sig5 : sdnnOf [(0:ℝ), 200, -200, 400, -400] 10 = some 0 := by
  unfold sdnnOf
  rw [rr_sig5]
  norm_num [Real.sqrt_eq_zero']

/-- Claim C7 counterexample: the short-window guard only covers the
ST-elevation heuristic; `detectBeats` has no length guard, so at a
permissive sampling rate a window of five samples still yields rhythm
patterns.  The 5-sample window `[0, 200, -200, 400, -400]` at 10 Hz
produces two accepted beats 0.2 s apart, hence bpm = 300, the
`tachycardia` pattern and riskLevel `medium` — not `low` with no
patterns. -/
theorem c7_counterexample_short_window_tachycardia :
    analyzeHeuristic [(0:ℝ), 200, -200, 400, -400] 10
      = (["tachycardia"], Merge.Risk.medium)
    ∧ ([(0:ℝ), 200, -200, 400, -400].length < 20) := by
  refine ⟨?_, by norm_num⟩
  unfold analyzeHeuristic
  rw [detectSTElevation_short _ (by norm_num), bpm_sig5, sdnn_sig5, rr_sig5]
  norm_num

end Analyzer
namespace Analyzer

theorem maxRunAux_cons (thr v : ℝ) (l : List ℝ) (cur best : ℕ) :
    maxRunAux thr (v :: l) cur best
      = maxRunAux thr l (if thr < v then cur + 1 else 0)
          (max best (if thr < v then cur + 1 else 0)) := rfl

theorem maxRunAux_cons_not (thr v : ℝ) (l : List ℝ) (h : ¬ thr < v) (cur best : ℕ) :
    maxRunAux thr (v :: l) cur best = maxRunAux thr l 0 best := by
  simp only [maxRunAux_cons, if_neg h, Nat.max_zero]

theorem maxRunAux_skip_replicate (thr B : ℝ) (h : ¬ thr < B) (l : List ℝ) :
    ∀ (n cur best : ℕ), maxRunAux thr (List.replicate (n + 1) B ++ l) cur best
      = maxRunAux thr l 0 best := by
  intro n
  induction n with
  | zero => intro cur best; exact maxRunAux_cons_not thr B l h cur best
  | succ n ih =>
    intro cur best
    rw [show List.replicate (n + 1 + 1) B ++ l = B :: (List.replicate (n + 1) B ++ l) from rfl]
    rw [maxRunAux_cons_not thr B _ h]
    exact ih 0 best

theorem maxRunAux_all_above (thr v : ℝ) (h : thr < v) :
    ∀ (n cur best : ℕ), maxRunAux thr (List.replicate (n + 1) v) cur best
      = max best (cur + n + 1) := by
  intro n
  induction n with
  | zero =>
    intro cur best
    rw [show List.replicate (0 + 1) v = [v] from rfl, maxRunAux_cons, if_pos h]
    rfl
  | succ n ih =>
    intro cur best
    rw [show List.replicate (n + 1 + 1) v = v :: List.replicate (n + 1) v from rfl]
    rw [maxRunAux_cons, if_pos h, ih]
    rw [Nat.max_assoc, Nat.max_eq_right (by omega : cur + 1 ≤ cur + 1 + n + 1)]
    congr 1
    omega

theorem maxRunAux_none_above (thr : ℝ) :
    ∀ (l : List ℝ), (∀ v ∈ l, ¬ thr < v) → ∀ (cur best : ℕ),
      maxRunAux thr l cur best = best := by
  intro l
  induction l with
  | nil => intro _ cur best; rfl
  | cons v l ih =>
    intro hv cur best
    rw [maxRunAux_cons_not thr v l (hv v (List.mem_cons_self _ _))]
    exact ih (fun x hx => hv x (List.mem_cons_of_mem _ hx)) 0 best

end Analyzer
namespace Analyzer

theorem length_halfstep (m : ℕ) (B C : ℝ) :
    (List.replicate m B ++ List.replicate m C).length = m + m := by
  rw [List.length_append, List.length_replicate, List.length_replicate]

theorem nBase_halfstep_le (m : ℕ) (B C : ℝ) (hm : 100 ≤ m) :
    nBaseOf (List.replicate m B ++ List.replicate m C) ≤ m := by
  unfold nBaseOf
  rw [length_halfstep]
  have h1 : (m + m) / 5 ≤ m := by omega
  exact max_le (by omega) h1

theorem stBaseline_halfstep (m : ℕ) (B C : ℝ) (hm : 100 ≤ m) :
    stBaseline (List.replicate m B ++ List.replicate m C) = B := by
  have hle := nBase_halfstep_le m B C hm
  have hpos : 0 < nBaseOf (List.replicate m B ++ List.replicate m C) := by
    unfold nBaseOf
    omega
  unfold stBaseline
  rw [List.take_append_of_le_length (by rw [List.length_replicate]; exact hle),
    List.take_replicate, min_eq_left hle]
  rw [List.Sorted.insertionSort_eq (by exact List.pairwise_replicate.mpr (Or.inr le_rfl))]
  simp [List.getD, Nat.div_lt_self hpos]

theorem stDiffs_halfstep (m : ℕ) (B C : ℝ) (hm : 100 ≤ m) :
    stDiffs (List.replicate m B ++ List.replicate m C)
      = List.replicate m 0 ++ List.replicate m (C - B) := by
  unfold stDiffs
  rw [stBaseline_halfstep m B C hm, List.map_append, List.map_replicate, List.map_replicate,
    sub_self]

theorem stStd_inner_halfstep (m : ℕ) (B C : ℝ) (hm : 100 ≤ m) :
    (((stDiffs (List.replicate m B ++ List.replicate m C)).map fun d => d * d).sum
        / ((List.replicate m B ++ List.replicate m C).length : ℝ))
      = ((C - B) * (C - B)) / 2 := by
  rw [stDiffs_halfstep m B C hm, length_halfstep, List.map_append, List.map_replicate,
    List.map_replicate, List.sum_append, List.sum_replicate, List.sum_replicate]
  have hm0 : (0 : ℝ) < m := by
    have : (0 : ℕ) < m := by omega
    exact_mod_cast this
  rw [nsmul_eq_mul, nsmul_eq_mul]
  push_cast
  field_simp
  ring
end Analyzer
namespace Analyzer

theorem stStd_halfstep_pos (m : ℕ) (B : ℝ) (hm : 100 ≤ m) (hB : 0 < B) :
    stStd (List.replicate m B ++ List.replicate m (2*B)) = Real.sqrt ((B * B) / 2) := by
  unfold stStd
  rw [stStd_inner_halfstep m B (2*B) hm, show (2*B - B) = B from by ring]
  unfold jsOr1
  rw [if_neg]
  intro h0
  rw [Real.sqrt_eq_zero (by positivity)] at h0
  nlinarith

theorem stStd_flat (m : ℕ) (hm : 100 ≤ m) :
    stStd (List.replicate m (0:ℝ) ++ List.replicate m 0) = 1 := by
  unfold stStd
  rw [stStd_inner_halfstep m 0 0 hm]
  norm_num [jsOr1]

theorem elevatedStdCount_halfstep (m : ℕ) (B : ℝ) (hm : 100 ≤ m) (hB : 0 < B) :
    elevatedStdCount (List.replicate m B ++ List.replicate m (2*B)) = m := by
  unfold elevatedStdCount
  rw [stDiffs_halfstep m B (2*B) hm, stStd_halfstep_pos m B hm hB,
    show (2*B - B) = B from by ring]
  have hsq : Real.sqrt ((B * B) / 2) < (5 / 6) * B := by
    rw [Real.sqrt_lt' (mul_pos (by norm_num) hB)]
    nlinarith [mul_pos hB hB]
  have hlo : (decide (1.2 * Real.sqrt ((B * B) / 2) < (0:ℝ))) = false := by
    apply decide_eq_false
    rw [not_lt]
    have := Real.sqrt_nonneg ((B * B) / 2)
    nlinarith
  have hhi : (decide (1.2 * Real.sqrt ((B * B) / 2) < B)) = true := by
    apply decide_eq_true
    linarith [hsq]
  rw [List.filter_append, List.filter_replicate, List.filter_replicate, hlo, hhi]
  simp

end Analyzer
namespace Analyzer

/-- Claim C8 (amended): for windows `first half B, second half 2 B` of length
`2 m ≥ 200` the heuristic fires for every POSITIVE baseline `B` — for all
`B > 0` via the spike-density disjunct, and when `B > 10` the contiguous-run
signal specifically holds as the claim describes: the longest run above
`baseline + max(0.1 baseline, 0.4 σ, 10)` is the whole second half, `m`
samples, which is 50 % ≥ the 25 % threshold.  For `B ≤ 0` detection can
fail — see the counterexample at `B = 0`. -/
theorem c8_step_window_detected :
    ∀ (m : ℕ) (B : ℝ), 100 ≤ m → 0 < B →
      detectSTElevation (List.replicate m B ++ List.replicate m (2*B)) = true
      ∧ (10 < B →
        maxRun (contigThresholdOf (List.replicate m B ++ List.replicate m (2*B)))
            (List.replicate m B ++ List.replicate m (2*B)) = m
        ∧ (List.replicate m B ++ List.replicate m (2*B)).length / 4 ≤ m) := by
  intro m B hm hB
  constructor
  · unfold detectSTElevation
    rw [length_halfstep, elevatedStdCount_halfstep m B hm hB]
    rw [if_neg (by omega)]
    have hA : (decide (((m + m : ℕ) : ℝ) * 0.25 < ((m : ℕ) : ℝ))) = true := by
      apply decide_eq_true
      have hm0 : (0 : ℝ) < m := by
        have : (0 : ℕ) < m := by omega
        exact_mod_cast this
      push_cast
      linarith
    rw [hA, Bool.true_or, Bool.true_or]
  · intro hB10
    have hbase := stBaseline_halfstep m B (2*B) hm
    have hstd := stStd_halfstep_pos m B hm hB
    have hsqlt : Real.sqrt ((B * B) / 2) < B := by
      rw [Real.sqrt_lt' hB]
      nlinarith [mul_pos hB hB]
    have hthr_ge : ¬ (contigThresholdOf (List.replicate m B ++ List.replicate m (2*B)) < B) := by
      unfold contigThresholdOf
      rw [hbase, hstd, not_lt]
      have h10 : (10:ℝ) ≤ max (0.1 * B) (max (Real.sqrt ((B * B) / 2) * 0.4) 10) :=
        le_max_of_le_right (le_max_right _ _)
      linarith
    have hthr_lt : contigThresholdOf (List.replicate m B ++ List.replicate m (2*B)) < 2*B := by
      unfold contigThresholdOf
      rw [hbase, hstd]
      have hmax : max (0.1 * B) (max (Real.sqrt ((B * B) / 2) * 0.4) 10) < B := by
        apply max_lt (by linarith)
        apply max_lt _ (by linarith)
        nlinarith [Real.sqrt_nonneg ((B * B) / 2)]
      linarith
    constructor
    · obtain ⟨m', rfl⟩ : ∃ m', m = m' + 1 := ⟨m - 1, by omega⟩
      unfold maxRun
      rw [maxRunAux_skip_replicate _ B hthr_ge _ m' 0 0,
        maxRunAux_all_above _ (2*B) hthr_lt m' 0 0]
      omega
    · rw [length_halfstep]
      omega

/-- Claim C8 counterexample: at baseline `B = 0` the "first half B, second
half B×2" window of length 200 is flat zero; the baseline is 0, the
standard deviation collapses to the JS fallback 1, no sample exceeds any
of the three thresholds, and `detectSTElevation` returns `false` — the
claim demands `true` for every baseline. -/
theorem c8_counterexample_zero_baseline :
    detectSTElevation (List.replicate 100 (0:ℝ) ++ List.replicate 100 0) = false
    ∧ 200 ≤ (List.replicate 100 (0:ℝ) ++ List.replicate 100 0).length := by
  have hm : (100:ℕ) ≤ 100 := le_rfl
  have hbase := stBaseline_halfstep 100 (0:ℝ) 0 hm
  have hstd := stStd_flat 100 hm
  constructor
  · unfold detectSTElevation
    rw [length_halfstep]
    rw [if_neg (by omega)]
    have hcount : elevatedStdCount (List.replicate 100 (0:ℝ) ++ List.replicate 100 0) = 0 := by
      unfold elevatedStdCount
      rw [stDiffs_halfstep 100 0 0 hm, hstd, show ((0:ℝ) - 0) = 0 from by ring]
      have hf : (decide (1.2 * (1:ℝ) < 0)) = false := by
        apply decide_eq_false
        norm_num
      rw [List.filter_append, List.filter_replicate, hf]
      simp
    rw [hcount]
    have hA : (decide (((100 + 100 : ℕ) : ℝ) * 0.25 < ((0 : ℕ) : ℝ))) = false := by
      apply decide_eq_false
      push_cast
      norm_num
    have htail : tailMedianOf (List.replicate 100 (0:ℝ) ++ List.replicate 100 0) = 0 := by
      unfold tailMedianOf nTailOf
      rw [← List.replicate_add]
      rw [List.length_replicate, List.drop_replicate]
      rw [List.Sorted.insertionSort_eq (by exact List.pairwise_replicate.mpr (Or.inr le_rfl))]
      simp [List.getD]
    have hB : (decide (minIncreaseOf (List.replicate 100 (0:ℝ) ++ List.replicate 100 0)
        < tailMedianOf (List.replicate 100 (0:ℝ) ++ List.replicate 100 0)
          - stBaseline (List.replicate 100 (0:ℝ) ++ List.replicate 100 0))) = false := by
      apply decide_eq_false
      unfold minIncreaseOf
      rw [hbase, hstd, htail, not_lt]
      have h15 : (15:ℝ) ≤ max (0 * 0.15) (max (1 * 0.4) 15) :=
        le_max_of_le_right (le_max_right _ _)
      linarith
    have hthr : contigThresholdOf (List.replicate 100 (0:ℝ) ++ List.replicate 100 0) = 10 := by
      unfold contigThresholdOf
      rw [hbase, hstd]
      norm_num
    have hrun : maxRun (contigThresholdOf (List.replicate 100 (0:ℝ) ++ List.replicate 100 0))
        (List.replicate 100 (0:ℝ) ++ List.replicate 100 0) = 0 := by
      rw [hthr]
      unfold maxRun
      apply maxRunAux_none_above
      intro v hv
      rcases List.mem_append.mp hv with hv1 | hv1 <;>
        rw [List.eq_of_mem_replicate hv1] <;> norm_num
    rw [hrun]
    have hC : (decide ((100 + 100) / 4 ≤ (0:ℕ))) = false := by
      apply decide_eq_false
      omega
    rw [hA, hB, hC]
    rfl
  · rw [length_halfstep]

end Analyzer

namespace Analyzer

/-- Witness for `c8_step_window_detected`: the concrete step window with
baseline 20 (first half 20, second half 40, 200 samples). -/
theorem c8_step_window_detected_witness :
    (100:ℕ) ≤ 100
    ∧ (0:ℝ) < 20
    ∧ detectSTElevation (List.replicate 100 (20:ℝ) ++ List.replicate 100 (2*20)) = true
    ∧ (10:ℝ) < 20
    ∧ maxRun (contigThresholdOf (List.replicate 100 (20:ℝ) ++ List.replicate 100 (2*20)))
        (List.replicate 100 (20:ℝ) ++ List.replicate 100 (2*20)) = 100 :=
  ⟨le_rfl, by norm_num,
    (c8_step_window_detected 100 20 le_rfl (by norm_num)).1,
    by norm_num,
    ((c8_step_window_detected 100 20 le_rfl (by norm_num)).2 (by norm_num)).1⟩

end Analyzer
